import Mathlib

/-!
Verification development for the ask-reddit-ai content-acquisition and
grounding pipeline.

The definitions below are a shallow embedding of the TypeScript source:

* `src/src/app/api/ask-question/route.ts` — `RedditOAuthService`
  (`getAccessToken`, `fetchSubredditData`, `fetchComments`) and the `POST`
  orchestration;
* `src/lib/utils.ts` (bundled in the same file) — `validateSubreddit`,
  `validateQuestion`, `cleanRedditText`, `extractRedditContent`;
* `src/src/app/api/reddit-data/route.ts` — the second
  `RedditOAuthService.fetchComments` (no score filter);
* the snoowrap-based `fetchSubredditData` variant (src/unnamed/part_001).

JavaScript strings are modelled as `String`, JS numbers as `Int`/`Rat`,
possibly-absent JSON fields as `Option`, time as milliseconds (`Nat`), and
network effects as explicit response arguments plus a trace of issued calls.
-/

/-- Characters treated as whitespace by the JS regexes (`\s`) and `trim`;
the common ASCII subset is modelled. -/
def isJsSpace (c : Char) : Bool :=
  c == ' ' || c == '\t' || c == '\n' || c == '\r' || c == '\x0b' || c == '\x0c'

/-- JS word characters `[a-zA-Z0-9_]`. -/
def jsWordChar (c : Char) : Bool :=
  c.isAlpha || c.isDigit || c == '_'

/-- JS truthiness-based defaulting for strings: `s || d` (the empty string is
falsy). -/
def jsOrStr : Option String → String → String
  | none, d => d
  | some s, d => if s.isEmpty then d else s

/-- JS `Array.prototype.join`: elements interleaved with the separator, empty
list gives the empty string. -/
def jsJoin (sep : String) : List String → String
  | [] => ""
  | [x] => x
  | x :: y :: xs => x ++ sep ++ jsJoin sep (y :: xs)

/-- JS `String.prototype.trim` on a character list. -/
def jsTrimList (l : List Char) : List Char :=
  ((l.dropWhile isJsSpace).reverse.dropWhile isJsSpace).reverse

/-- JS `String.prototype.trim`. -/
def jsTrim (s : String) : String :=
  (jsTrimList s.toList).asString

/-- Number of (possibly overlapping) occurrence positions of `pat` in a
character list. -/
def countOccur (pat : List Char) : List Char → Nat
  | [] => 0
  | c :: cs => (if pat.isPrefixOf (c :: cs) then 1 else 0) + countOccur pat cs

/-- Number of occurrence positions of `pat` in `s`. -/
def countOccurStr (pat s : String) : Nat :=
  countOccur pat.toList s.toList

/-!
`cleanRedditText` (src/lib/utils.ts, lines 929-945): a chain of global regex
replacements. Each replacement is embedded as a left-to-right scanner over the
character list, mirroring the corresponding JS regex semantics (`.` does not
match a newline, `*?` is lazy, `+` is greedy, scanning resumes after each
replaced match). The scanners take a fuel argument for structural recursion;
every step consumes at least one input character, so fuel `length + 1` (as
passed by `cleanRedditText`) is never exhausted.
-/

/-- Find the earliest occurrence of the closing delimiter `d` (lazy match of
`(.*?)` followed by `d`): returns the skipped-over text and the remainder
after `d`, failing at a newline or the end of input. -/
def findClose (d : List Char) : List Char → Option (List Char × List Char)
  | [] => none
  | c :: cs =>
    if d.isPrefixOf (c :: cs) then some ([], (c :: cs).drop d.length)
    else if c == '\n' then none
    else (findClose d cs).map (fun p => (c :: p.1, p.2))

/-- Global replacement of `d(.*?)d` by the inner text (used for `**`, `*`,
`~~` and the backquote code-span delimiters). -/
def replacePairs (d : List Char) : Nat → List Char → List Char
  | 0, l => l
  | _ + 1, [] => []
  | fuel + 1, c :: cs =>
    if d.isPrefixOf (c :: cs) then
      match findClose d ((c :: cs).drop d.length) with
      | some (inner, rest) => inner ++ replacePairs d fuel rest
      | none => c :: replacePairs d fuel cs
    else c :: replacePairs d fuel cs

/-- Global replacement of `https?:\/\/[^\s]+` by `[URL]`. -/
def replaceUrls : Nat → List Char → List Char
  | 0, l => l
  | _ + 1, [] => []
  | fuel + 1, c :: cs =>
    let l := c :: cs
    let scheme : Nat :=
      if ("https://".toList).isPrefixOf l then 8
      else if ("http://".toList).isPrefixOf l then 7
      else 0
    if scheme == 0 then c :: replaceUrls fuel cs
    else
      let rest := l.drop scheme
      if (rest.takeWhile (fun ch => !isJsSpace ch)).isEmpty then
        c :: replaceUrls fuel cs
      else
        "[URL]".toList ++ replaceUrls fuel (rest.dropWhile (fun ch => !isJsSpace ch))

/-- Global replacement of `tag[a-zA-Z0-9_]+` by `repl` (used for the `/r/`
and `/u/` mention patterns). -/
def replaceTag (tag repl : List Char) : Nat → List Char → List Char
  | 0, l => l
  | _ + 1, [] => []
  | fuel + 1, c :: cs =>
    let l := c :: cs
    if tag.isPrefixOf l then
      let rest := l.drop tag.length
      if (rest.takeWhile jsWordChar).isEmpty then c :: replaceTag tag repl fuel cs
      else repl ++ replaceTag tag repl fuel (rest.dropWhile jsWordChar)
    else c :: replaceTag tag repl fuel cs

/-- Global replacement of `\n{3,}` by two newlines. -/
def collapseNewlines : Nat → List Char → List Char
  | 0, l => l
  | _ + 1, [] => []
  | fuel + 1, c :: cs =>
    if c == '\n' then
      if 3 ≤ ((c :: cs).takeWhile (fun ch => ch == '\n')).length then
        '\n' :: '\n' :: collapseNewlines fuel ((c :: cs).dropWhile (fun ch => ch == '\n'))
      else c :: collapseNewlines fuel cs
    else c :: collapseNewlines fuel cs

/-- Global replacement of `\s{2,}` by a single space. -/
def collapseSpaces : Nat → List Char → List Char
  | 0, l => l
  | _ + 1, [] => []
  | fuel + 1, c :: cs =>
    if isJsSpace c then
      match cs with
      | [] => [c]
      | c2 :: _ =>
        if isJsSpace c2 then ' ' :: collapseSpaces fuel (cs.dropWhile isJsSpace)
        else c :: collapseSpaces fuel cs
    else c :: collapseSpaces fuel cs

/-- Embedding of `cleanRedditText` (src/lib/utils.ts): strip markdown emphasis,
strikethrough and code spans, replace URLs and forum/user mentions by literal
placeholders, collapse newline and whitespace runs, and trim. -/
def cleanRedditText (s : String) : String :=
  let l0 := s.toList
  let l1 := replacePairs ['*', '*'] (l0.length + 1) l0
  let l2 := replacePairs ['*'] (l1.length + 1) l1
  let l3 := replacePairs ['~', '~'] (l2.length + 1) l2
  let l4 := replacePairs [Char.ofNat 96] (l3.length + 1) l3
  let l5 := replaceUrls (l4.length + 1) l4
  let l6 := replaceTag "/r/".toList "[SUBREDDIT]".toList (l5.length + 1) l5
  let l7 := replaceTag "/u/".toList "[USER]".toList (l6.length + 1) l6
  let l8 := collapseNewlines (l7.length + 1) l7
  let l9 := collapseSpaces (l8.length + 1) l8
  (jsTrimList l9).asString

/-!
Data model (src/types/index.ts). `created_utc` is declared `number` in the
source but the ask-question route copies it from the raw response without a
default, so the runtime value can be `undefined`; it is therefore modelled as
`Option Rat`. All other kept fields are either defaulted by the code or
assumed present.
-/

/-- The `RedditPost` record (src/types/index.ts). -/
structure RedditPost where
  id : String
  title : String
  selftext : String
  author : String
  score : Int
  num_comments : Int
  created_utc : Option Rat
  url : String
  subreddit : String
  permalink : String
  upvote_ratio : Rat
deriving DecidableEq, Repr

/-- The `RedditComment` record (src/types/index.ts); the optional nested `replies` field
is not modelled (no claim observes it, and only top-level comments reach the
snapshot in every fetch variant). -/
structure RedditComment where
  id : String
  body : String
  author : String
  score : Int
  created_utc : Option Rat
  depth : Nat
deriving DecidableEq, Repr

/-- The `SubredditData` record (src/types/index.ts): the ForumSnapshot. `fetchedAt` is
milliseconds. -/
structure SubredditData where
  posts : List RedditPost
  comments : List RedditComment
  subreddit : String
  fetchedAt : Nat
deriving DecidableEq, Repr

/-- One entry of `data.data.children` of the upstream submissions listing;
fields the code defensively defaults are `Option`. -/
structure RawChild where
  id : String
  title : String
  selftext : Option String
  author : Option String
  score : Option Int
  num_comments : Option Int
  created_utc : Option Rat
  url : String
  subreddit : String
  permalink : String
  upvote_ratio : Option Rat
  stickied : Bool
deriving DecidableEq, Repr

/-- One entry of the upstream comment listing (`data[1].data.children`),
flattened to the fields the code reads. The snoowrap variant has no `kind`
wrapper; it simply ignores this field. -/
structure RawComment where
  kind : String
  id : String
  body : Option String
  author : Option String
  score : Option Int
  created_utc : Option Rat
deriving DecidableEq, Repr

/-- Construction of a `RedditPost` from a raw submission
(src/src/app/api/ask-question/route.ts, lines 126-138). `selftext`, `author`,
`score`, `num_comments` and `upvote_ratio` receive JS `||` defaults;
`created_utc` is copied through without one. -/
def mkPost (post : RawChild) : RedditPost :=
  { id := post.id
    title := post.title
    selftext := jsOrStr post.selftext ""
    author := jsOrStr post.author "[deleted]"
    score := (post.score).getD 0
    num_comments := (post.num_comments).getD 0
    created_utc := post.created_utc
    url := post.url
    subreddit := post.subreddit
    permalink := post.permalink
    upvote_ratio := ( RawChild.upvote_ratio post).getD 0 }

/-- The per-comment guard of both `fetchComments` implementations
(ask-question route lines 195-197, reddit-data route lines 187-189):
`kind === 't1'`, body present (truthy) and not a deleted/removed sentinel. -/
def keepComment (c : RawComment) : Bool :=
  c.kind == "t1" &&
    (match c.body with
     | none => false
     | some b => !b.isEmpty && b != "[deleted]" && b != "[removed]")

/-- Comment record built by both `fetchComments` implementations
(ask-question route lines 198-205); the body is guarded truthy by
`keepComment`, so the `getD ""` default is never observable. -/
def mkComment (c : RawComment) : RedditComment :=
  { id := c.id
    body := (c.body).getD ""
    author := jsOrStr c.author "[deleted]"
    score := (c.score).getD 0
    created_utc := c.created_utc
    depth := 0 }

/-- Embedding of `transformComment` of the snoowrap variant (src/unnamed/part_001, lines
38-57), restricted to the top level (depth 0); the optional nested `replies`
field is not modelled. -/
def transformComment (c : RawComment) : RedditComment :=
  { id := c.id
    body := jsOrStr c.body ""
    author := jsOrStr c.author "[deleted]"
    score := (c.score).getD 0
    created_utc := c.created_utc
    depth := 0 }

/-- Comment selection of `RedditOAuthService.fetchComments` in the
ask-question route (lines 194-209): slice the listing at `limit`, keep
guarded comments, then `filter(c => c.score > 0).slice(0, limit)`. -/
def askCommentPipeline (listing : List RawComment) (limit : Nat) : List RedditComment :=
  ((((listing.take limit).filter keepComment).map mkComment).filter
    (fun c => decide (0 < c.score))).take limit

/-- Comment selection of `RedditOAuthService.fetchComments` in the
reddit-data route (lines 186-201): slice the listing at `limit` and keep
guarded comments; no score filter is applied. -/
def dataCommentPipeline (listing : List RawComment) (limit : Nat) : List RedditComment :=
  ((listing.take limit).filter keepComment).map mkComment

/-- Comment selection of the snoowrap `fetchSubredditData` (src/unnamed/
part_001, lines 88-97): slice at 10, transform, then filter by truthy
non-sentinel body and positive score. -/
def snooCommentPipeline (listing : List RawComment) : List RedditComment :=
  ((listing.take 10).map transformComment).filter
    (fun c => !c.body.isEmpty && c.body != "[deleted]" && c.body != "[removed]" &&
      decide (0 < c.score))

/-- Upstream response to one per-submission comment request, as the code
distinguishes it: a non-success HTTP status (thrown, then swallowed by the
surrounding catch), a response without `data[1].data.children`, or a comment
listing. -/
inductive CommentsResponse where
  | httpError (status : Nat)
  | noChildren
  | listing (children : List RawComment)
deriving DecidableEq, Repr

/-- Embedding of `RedditOAuthService.fetchComments` of the ask-question route (lines
167-214) as a function of the upstream response: every failure path returns
`[]` via the function's own catch. -/
def fetchComments (resp : CommentsResponse) (limit : Nat) : List RedditComment :=
  match resp with
  | .httpError _ => []
  | .noChildren => []
  | .listing children => askCommentPipeline children limit

/-- The submission-processing loop of `fetchSubredditData` (ask-question
route, lines 122-150): skip stickied children, turn the rest into posts, and
fetch up to 10 comments for each of the first 5 retained posts (the check
`posts.length <= 5` runs after the push, hence the `nPosts + 1`). `oracle`
maps a submission id to its comment-endpoint response. -/
def processChildren (oracle : String → CommentsResponse) :
    List RawChild → Nat → List RedditPost × List RedditComment
  | [], _ => ([], [])
  | child :: rest, nPosts =>
    if child.stickied then processChildren oracle rest nPosts
    else
      let tail := processChildren oracle rest (nPosts + 1)
      let cs := if nPosts + 1 ≤ 5 then fetchComments (oracle child.id) 10 else []
      (mkPost child :: tail.1, cs ++ tail.2)

/-- Stable insertion (descending by `key`): the new element goes after every
element whose key is at least as large, matching the placement a stable sort
gives an element that occurred later in the input. -/
def insertDescBy {α : Type} (key : α → Int) (x : α) : List α → List α
  | [] => [x]
  | y :: ys => if key x ≤ key y then y :: insertDescBy key x ys else x :: y :: ys

/-- Left fold of `insertDescBy` over the input. -/
def sortGoBy {α : Type} (key : α → Int) : List α → List α → List α
  | acc, [] => acc
  | acc, x :: xs => sortGoBy key (insertDescBy key x acc) xs

/-- The JS `sort((a, b) => b.score - a.score)`: a stable sort, descending by
`key`. A stable sort for a total preorder is unique, so this structural
insertion sort agrees with the engine's merge sort. -/
def stableSortDesc {α : Type} (key : α → Int) (l : List α) : List α :=
  sortGoBy key [] l

/-- Snapshot assembly of `fetchSubredditData` (ask-question route, lines
118-159) after a successful listing response: process the first `limit`
children, then sort posts and comments by score descending. -/
def buildSnapshot (children : List RawChild) (oracle : String → CommentsResponse)
    (subreddit : String) (now : Nat) (limit : Nat) : SubredditData :=
  let pcs := processChildren oracle (children.take limit) 0
  { posts := stableSortDesc RedditPost.score pcs.1
    comments := stableSortDesc RedditComment.score pcs.2
    subreddit := subreddit
    fetchedAt := now }

/-- The `RedditOAuthService` token cache: `accessToken` and `tokenExpiry`
(milliseconds since the epoch, `Option` for `null`). -/
structure TokenState where
  accessToken : Option String
  tokenExpiry : Option Nat
deriving DecidableEq, Repr

/-- Upstream response of the OAuth token endpoint: a non-success status, or a
JSON body whose `access_token` field may be absent. -/
inductive TokenFetchResult where
  | httpError (status : Nat)
  | ok (access_token : Option String)
deriving DecidableEq, Repr

/-- Failure modes of `getAccessToken`. -/
inductive AuthFailure where
  | http (status : Nat)
  | missingToken
deriving DecidableEq, Repr

instance : DecidableEq (Except AuthFailure String) := fun a b =>
  match a, b with
  | .error e, .error e' =>
    if h : e = e' then .isTrue (by rw [h]) else .isFalse (by intro hc; cases hc; exact h rfl)
  | .ok x, .ok y =>
    if h : x = y then .isTrue (by rw [h]) else .isFalse (by intro hc; cases hc; exact h rfl)
  | .error _, .ok _ => .isFalse (by intro hc; cases hc)
  | .ok _, .error _ => .isFalse (by intro hc; cases hc)

/-- Outcome of one `getAccessToken` call: the returned token or failure, the
cache state afterwards, and whether a network request to the token endpoint
was made. -/
structure TokenStep where
  result : Except AuthFailure String
  state : TokenState
  network : Bool
deriving DecidableEq, Repr

/-- Fifty minutes in milliseconds: the cache validity window
(`Date.now() + 50 * 60 * 1000`). -/
def tokenWindowMs : Nat := 50 * 60 * 1000

/-- Embedding of `RedditOAuthService.getAccessToken` (ask-question route, lines 35-77).
The cached token is returned without a network call when it is truthy and
`now` is strictly before the expiry; otherwise the endpoint is called:
non-success statuses fail, a missing or empty `access_token` fails after
being stored, and a truthy token is cached with expiry `now + 50 minutes`. -/
def getAccessToken (s : TokenState) (now : Nat) (resp : TokenFetchResult) : TokenStep :=
  match s.accessToken, s.tokenExpiry with
  | some tok, some e =>
    if !tok.isEmpty && decide (now < e) then
      { result := .ok tok, state := s, network := false }
    else getFreshToken s now resp
  | _, _ => getFreshToken s now resp
where
  getFreshToken (s : TokenState) (now : Nat) (resp : TokenFetchResult) : TokenStep :=
    match resp with
    | .httpError code => { result := .error (.http code), state := s, network := true }
    | .ok tokenField =>
      match tokenField with
      | none =>
        { result := .error .missingToken
          state := { s with accessToken := none }
          network := true }
      | some tok =>
        if tok.isEmpty then
          { result := .error .missingToken
            state := { s with accessToken := some tok }
            network := true }
        else
          { result := .ok tok
            state := { accessToken := some tok, tokenExpiry := some (now + tokenWindowMs) }
            network := true }

/-- Typed failures of `fetchSubredditData` (ask-question route, lines
102-116): 404, 403, other non-success statuses, a response without
`data.data.children`, and token-acquisition failure. -/
inductive FetchFailure where
  | auth (e : AuthFailure)
  | notFound
  | forbidden
  | upstream (status : Nat)
  | noData
deriving DecidableEq, Repr

/-- Upstream response of the submissions listing endpoint. -/
inductive ListingResponse where
  | httpError (status : Nat)
  | badShape
  | ok (children : List RawChild)
deriving DecidableEq, Repr

/-- Network requests the pipeline can issue, recorded as a trace. -/
inductive NetworkCall where
  | tokenEndpoint
  | submissionsEndpoint
  | commentsEndpoint (submissionId : String)
  | generationCall
deriving DecidableEq, Repr

/-- Failure modes of the generation collaborator, as the POST handler
classifies them (quota/billing, API-key, or anything else). -/
inductive GenFailure where
  | quotaExhausted
  | invalidKey
  | otherFailure
deriving DecidableEq, Repr

/-- Successful reply of the generation collaborator: the completion text (the
`content` field may be absent) and `usage.total_tokens`. -/
structure GenSuccess where
  text : Option String
  totalTokens : Option Nat
deriving DecidableEq, Repr

/-- The external world for one request: the token-cache state, the current
time in milliseconds, and the responses each endpoint would give. -/
structure Env where
  tokenState : TokenState
  now : Nat
  tokenResp : TokenFetchResult
  listingResp : ListingResponse
  commentResp : String → CommentsResponse
  genResp : Except GenFailure GenSuccess

/-- Comment-endpoint requests issued by the submission loop: one per retained
(non-stickied) post among the first `limit` children, for the first 5
retained posts. -/
def commentTrace (children : List RawChild) (limit : Nat) : List NetworkCall :=
  (((children.take limit).filter (fun ch => !ch.stickied)).take 5).map
    (fun ch => NetworkCall.commentsEndpoint ch.id)

/-- Embedding of `RedditOAuthService.fetchSubredditData` (ask-question route, lines
80-164) with its network trace: acquire a token, call the listing endpoint,
map HTTP failures to typed failures, and otherwise assemble the snapshot
(issuing one comment request per retained post among the first five). -/
def fetchSubredditDataT (env : Env) (subreddit : String) (limit : Nat) :
    Except FetchFailure SubredditData × List NetworkCall :=
  let step := getAccessToken env.tokenState env.now env.tokenResp
  let t0 : List NetworkCall := if step.network then [.tokenEndpoint] else []
  match step.result with
  | .error e => (.error (.auth e), t0)
  | .ok _ =>
    let t1 := t0 ++ [.submissionsEndpoint]
    match env.listingResp with
    | .httpError st =>
      if st == 404 then (.error .notFound, t1)
      else if st == 403 then (.error .forbidden, t1)
      else (.error (.upstream st), t1)
    | .badShape => (.error .noData, t1)
    | .ok children =>
      (.ok (buildSnapshot children env.commentResp subreddit env.now limit),
        t1 ++ commentTrace children limit)

/-- The result component of `fetchSubredditDataT`. -/
def fetchSubredditData (env : Env) (subreddit : String) (limit : Nat) :
    Except FetchFailure SubredditData :=
  (fetchSubredditDataT env subreddit limit).1

/-- The regex test `/^[a-zA-Z0-9_]+$/.test(s)` of `VALIDATION.SUBREDDIT.
PATTERN` (src/lib/constants.ts). -/
def subredditPatternTest (s : String) : Bool :=
  !s.isEmpty && s.toList.all jsWordChar

/-- Embedding of `validateSubreddit` (src/lib/utils.ts, lines 843-861) reduced to its
`isValid` component: non-empty, length within [1, 50], and only word
characters. -/
def validateSubreddit (subreddit : String) : Bool :=
  !subreddit.isEmpty &&
    decide (1 ≤ subreddit.length) &&
    decide (subreddit.length ≤ 50) &&
    subredditPatternTest subreddit

/-- Embedding of `validateQuestion` (src/lib/utils.ts, lines 866-882) reduced to its
`isValid` component: present, trimmed non-empty, trimmed length within
[5, 500]. -/
def validateQuestion (question : String) : Bool :=
  !question.isEmpty &&
    !(jsTrim question).isEmpty &&
    decide (5 ≤ (jsTrim question).length) &&
    decide ((jsTrim question).length ≤ 500)

/-- The spec's forum-name pattern `^[A-Za-z0-9_]{1,50}$`, written from the
spec's words for comparison with `validateSubreddit`. -/
def specSubredditPattern (s : String) : Bool :=
  decide (1 ≤ s.length) && decide (s.length ≤ 50) && s.toList.all jsWordChar

/-- Post-selection predicate of `extractRedditContent` (src/lib/utils.ts,
line 952): truthy `selftext` longer than 50 characters. -/
def postQualifies (p : RedditPost) : Bool :=
  !p.selftext.isEmpty && decide (50 < p.selftext.length)

/-- Comment-selection predicate of `extractRedditContent` (line 963): truthy
body longer than 30 characters and positive score. -/
def commentQualifies (c : RedditComment) : Bool :=
  !c.body.isEmpty && decide (30 < c.body.length) && decide (0 < c.score)

/-- The posts rendered by `extractRedditContent`: the first 10 qualifying
posts. -/
def selectedPosts (posts : List RedditPost) : List RedditPost :=
  (posts.filter postQualifies).take 10

/-- The comments rendered by `extractRedditContent`: the first 15 qualifying
comments. -/
def selectedComments (comments : List RedditComment) : List RedditComment :=
  (comments.filter commentQualifies).take 15

/-- One rendered post block: `POST (${score} upvotes): ${title}\n${content}`
with the body cleaned. -/
def renderPost (p : RedditPost) : String :=
  "POST (" ++ toString p.score ++ " upvotes): " ++ p.title ++ "\n" ++
    cleanRedditText p.selftext

/-- One rendered comment block: `COMMENT (${score} upvotes): ${content}`. -/
def renderComment (c : RedditComment) : String :=
  "COMMENT (" ++ toString c.score ++ " upvotes): " ++ cleanRedditText c.body

/-- The separator joining blocks within each group. -/
def blockSeparator : String := "\n\n---\n\n"

/-- The distinct marker joining the post group and the comment group. -/
def postsEndMarker : String := "\n\n===POSTS_END===\n\n"

/-- Embedding of `extractRedditContent` (src/lib/utils.ts, lines 950-973): render the
selected posts and comments, join each group with the block separator, drop
empty groups (`filter(Boolean)`), and join the remaining groups with the
posts-end marker. -/
def extractRedditContent (posts : List RedditPost) (comments : List RedditComment) : String :=
  let postContent := jsJoin blockSeparator ((selectedPosts posts).map renderPost)
  let commentContent := jsJoin blockSeparator ((selectedComments comments).map renderComment)
  jsJoin postsEndMarker (([postContent, commentContent]).filter (fun s => !s.isEmpty))

/-- Caller-visible error categories of the spec's taxonomy, as the POST
handler and its status mapping distinguish them. -/
inductive ErrorCategory where
  | validation
  | notFound
  | forbidden
  | upstream
  | auth
  | insufficientContent
  | rateLimited
  | generationFailed
deriving DecidableEq, Repr

/-- Category of a typed fetch failure as surfaced to the caller. -/
def mapFetchFailure : FetchFailure → ErrorCategory
  | .auth _ => .auth
  | .notFound => .notFound
  | .forbidden => .forbidden
  | .upstream _ => .upstream
  | .noData => .upstream

/-- Category of a generation failure per the POST handler's status mapping
(lines 349-357): quota → 429, API key → 401, otherwise 500. -/
def mapGenFailure : GenFailure → ErrorCategory
  | .quotaExhausted => .rateLimited
  | .invalidKey => .auth
  | .otherFailure => .generationFailed

/-- The `AIResponse` record (src/types/index.ts) restricted to the fields the claims
observe; `sourcesCount` is the length of the synthetic `sources` list. -/
structure AIResponse where
  answerText : String
  sourcesCount : Nat
  confidence : Rat
  model : String
  tokens_used : Option Nat
deriving DecidableEq, Repr

/-- Embedding of `generateAIResponse` (ask-question route, lines 223-288) given a
successful completion: default the text, attach the single synthetic source
and the fixed confidence placeholder. -/
def generateAIResponse (g : GenSuccess) (model : String) : AIResponse :=
  { answerText := jsOrStr g.text "No response generated"
    sourcesCount := 1
    confidence := (85 : Rat) / 100
    model := model
    tokens_used := g.totalTokens }

/-- The model allow-list of the POST handler (line 303). -/
def allowedModels : List String := ["gpt-4o-mini", "gpt-3.5-turbo"]

/-- The `answer` operation: `handleSubmitQuestion`'s client-side validation
(src page component, lines 563-610, via `validateSubreddit` and
`validateQuestion`) followed by the ask-question `POST` handler (lines
290-361): presence and model checks, the in-process fetch with timeframe 24h
and limit 25, the two insufficient-content gates, and the generation call.
Returns the result and the trace of network calls issued. -/
def answer (subreddit question model : String) (env : Env) :
    Except ErrorCategory AIResponse × List NetworkCall :=
  if !validateSubreddit subreddit then (.error .validation, [])
  else if !validateQuestion question then (.error .validation, [])
  else if subreddit.isEmpty || question.isEmpty then (.error .validation, [])
  else if !(allowedModels.contains model) then (.error .validation, [])
  else
    let fr := fetchSubredditDataT env subreddit 25
    match fr.1 with
    | .error e => (.error (mapFetchFailure e), fr.2)
    | .ok snap =>
      if snap.posts.isEmpty then (.error .insufficientContent, fr.2)
      else
        let content := extractRedditContent snap.posts snap.comments
        if content.isEmpty || decide (content.length < 100) then
          (.error .insufficientContent, fr.2)
        else
          match env.genResp with
          | .error g => (.error (mapGenFailure g), fr.2 ++ [.generationCall])
          | .ok g => (.ok (generateAIResponse g model), fr.2 ++ [.generationCall])

/-- Qualification shared by the score-filtering comment pipelines: truthy,
non-sentinel body and positive score. -/
def positiveNonDeleted (c : RedditComment) : Bool :=
  !c.body.isEmpty && c.body != "[deleted]" && c.body != "[removed]" &&
    decide (0 < c.score)

/-- A concrete environment: empty token cache, a token endpoint that answers
with a token, and a submissions listing with no children. -/
def demoEnv : Env :=
  { tokenState := ⟨none, none⟩
    now := 0
    tokenResp := .ok (some "tkn")
    listingResp := .ok []
    commentResp := fun _ => .noChildren
    genResp := .error .otherFailure }

/-- A non-stickied raw submission whose `created_utc` field is absent. -/
def missingCreatedChild : RawChild :=
  { id := "p1"
    title := "a title"
    selftext := some "text"
    author := none
    score := none
    num_comments := none
    created_utc := none
    url := "u"
    subreddit := "test"
    permalink := "l"
    upvote_ratio := none
    stickied := false }

/-- A post whose body has exactly 50 characters. -/
def post50 : RedditPost :=
  { id := "p50"
    title := "fifty"
    selftext := "aaaaaaaaaaaaaaaaaaaaaaaaaaaaaaaaaaaaaaaaaaaaaaaaaa"
    author := "x"
    score := 1
    num_comments := 0
    created_utc := none
    url := ""
    subreddit := "s"
    permalink := ""
    upvote_ratio := 0 }

/-- A post whose body has exactly 51 characters. -/
def post51 : RedditPost :=
  { id := "p51"
    title := "fiftyone"
    selftext := "aaaaaaaaaaaaaaaaaaaaaaaaaaaaaaaaaaaaaaaaaaaaaaaaaaa"
    author := "x"
    score := 1
    num_comments := 0
    created_utc := none
    url := ""
    subreddit := "s"
    permalink := ""
    upvote_ratio := 0 }

/-- A comment whose body has exactly 30 characters and positive score. -/
def comment30 : RedditComment :=
  { id := "c30"
    body := "bbbbbbbbbbbbbbbbbbbbbbbbbbbbbb"
    author := "y"
    score := 1
    created_utc := none
    depth := 0 }

/-- A comment whose body has exactly 31 characters and positive score. -/
def comment31 : RedditComment :=
  { id := "c31"
    body := "bbbbbbbbbbbbbbbbbbbbbbbbbbbbbbb"
    author := "y"
    score := 1
    created_utc := none
    depth := 0 }

/-- A qualifying post (51-character body) whose raw title contains the
posts-end marker verbatim. -/
def markerPost : RedditPost :=
  { id := "pm"
    title := "x\n\n===POSTS_END===\n\ny"
    selftext := "aaaaaaaaaaaaaaaaaaaaaaaaaaaaaaaaaaaaaaaaaaaaaaaaaaa"
    author := "x"
    score := 0
    num_comments := 0
    created_utc := none
    url := ""
    subreddit := "s"
    permalink := ""
    upvote_ratio := 0 }

/-!
Helper lemmas. The stable sort is characterised by three facts: the output is
a permutation of the input, it is pairwise descending on keys, and for each
key value the subsequence with that key is unchanged (stability).
-/

theorem insertDescBy_perm {α : Type} (key : α → Int) (x : α) (l : List α) :
    (insertDescBy key x l).Perm (x :: l) := by
  induction l with
  | nil => simp [insertDescBy]
  | cons y ys ih =>
    simp only [insertDescBy]
    split
    · exact (ih.cons y).trans (List.Perm.swap x y ys)
    · exact List.Perm.refl _

theorem mem_insertDescBy {α : Type} (key : α → Int) {x a : α} {l : List α} :
    a ∈ insertDescBy key x l ↔ a = x ∨ a ∈ l := by
  rw [(insertDescBy_perm key x l).mem_iff]
  simp

theorem insertDescBy_pairwise {α : Type} (key : α → Int) {x : α} {l : List α}
    (h : l.Pairwise (fun a b => key b ≤ key a)) :
    (insertDescBy key x l).Pairwise (fun a b => key b ≤ key a) := by
  induction l with
  | nil => simp [insertDescBy]
  | cons y ys ih =>
    rcases List.pairwise_cons.mp h with ⟨hy, hys⟩
    simp only [insertDescBy]
    split
    · rename_i hle
      refine List.pairwise_cons.mpr ⟨?_, ih hys⟩
      intro b hb
      rcases (mem_insertDescBy key).mp hb with rfl | hb'
      · exact hle
      · exact hy b hb'
    · rename_i hgt
      refine List.pairwise_cons.mpr ⟨?_, h⟩
      intro b hb
      rcases List.mem_cons.mp hb with rfl | hb'
      · omega
      · have := hy b hb'
        omega

theorem insertDescBy_filter {α : Type} (key : α → Int) {x : α} (s : Int) {l : List α}
    (h : l.Pairwise (fun a b => key b ≤ key a)) :
    (insertDescBy key x l).filter (fun a => key a == s) =
      if key x == s then (l.filter (fun a => key a == s)) ++ [x]
      else l.filter (fun a => key a == s) := by
  induction l with
  | nil =>
    simp only [insertDescBy, List.filter]
    split <;> simp_all
  | cons y ys ih =>
    rcases List.pairwise_cons.mp h with ⟨hy, hys⟩
    simp only [insertDescBy]
    split
    · rename_i hle
      rw [List.filter_cons, List.filter_cons, ih hys]
      by_cases hx : key x == s <;> by_cases hyv : key y == s <;>
        simp [hx, hyv]
    · rename_i hgt
      by_cases hx : key x == s
      · have hkx : key x = s := by simpa using hx
        have hnil : (y :: ys).filter (fun a => key a == s) = [] := by
          rw [List.filter_eq_nil_iff]
          intro a ha
          rcases List.mem_cons.mp ha with rfl | ha'
          · simp only [beq_iff_eq]; omega
          · have := hy a ha'
            simp only [beq_iff_eq]; omega
        rw [List.filter_cons]
        simp [hx, hnil]
      · rw [List.filter_cons]
        simp [hx]

theorem sortGoBy_pairwise {α : Type} (key : α → Int) (l : List α) :
    ∀ acc, acc.Pairwise (fun a b => key b ≤ key a) →
      (sortGoBy key acc l).Pairwise (fun a b => key b ≤ key a) := by
  induction l with
  | nil => intro acc hacc; simpa [sortGoBy] using hacc
  | cons x xs ih =>
    intro acc hacc
    simpa [sortGoBy] using ih _ (insertDescBy_pairwise key hacc)

theorem sortGoBy_filter {α : Type} (key : α → Int) (s : Int) (l : List α) :
    ∀ acc, acc.Pairwise (fun a b => key b ≤ key a) →
      (sortGoBy key acc l).filter (fun a => key a == s) =
        acc.filter (fun a => key a == s) ++ l.filter (fun a => key a == s) := by
  induction l with
  | nil => intro acc _; simp [sortGoBy]
  | cons x xs ih =>
    intro acc hacc
    simp only [sortGoBy]
    rw [ih _ (insertDescBy_pairwise key hacc), insertDescBy_filter key s hacc,
      List.filter_cons]
    by_cases hx : key x == s <;> simp [hx]

theorem sortGoBy_perm {α : Type} (key : α → Int) (l : List α) :
    ∀ acc, (sortGoBy key acc l).Perm (acc ++ l) := by
  induction l with
  | nil => intro acc; simp [sortGoBy]
  | cons x xs ih =>
    intro acc
    simp only [sortGoBy]
    refine (ih (insertDescBy key x acc)).trans ?_
    refine (List.Perm.append_right xs (insertDescBy_perm key x acc)).trans ?_
    exact List.perm_middle.symm

theorem stableSortDesc_pairwise {α : Type} (key : α → Int) (l : List α) :
    (stableSortDesc key l).Pairwise (fun a b => key b ≤ key a) :=
  sortGoBy_pairwise key l [] (List.Pairwise.nil)

theorem stableSortDesc_filter {α : Type} (key : α → Int) (s : Int) (l : List α) :
    (stableSortDesc key l).filter (fun a => key a == s) = l.filter (fun a => key a == s) :=
  (sortGoBy_filter key s l [] (List.Pairwise.nil)).trans (by simp)

theorem stableSortDesc_perm {α : Type} (key : α → Int) (l : List α) :
    (stableSortDesc key l).Perm l :=
  (sortGoBy_perm key l []).trans (by simp)

theorem processChildren_fst (oracle : String → CommentsResponse) (l : List RawChild) :
    ∀ n, (processChildren oracle l n).1 = (l.filter (fun ch => !ch.stickied)).map mkPost := by
  induction l with
  | nil => intro n; simp [processChildren]
  | cons ch rest ih =>
    intro n
    rw [List.filter_cons]
    by_cases hst : ch.stickied
    · simp [processChildren, hst, ih]
    · simp [processChildren, hst, ih]

theorem processChildren_snd (oracle : String → CommentsResponse) (l : List RawChild) :
    ∀ n, (processChildren oracle l n).2 =
      ((l.filter (fun ch => !ch.stickied)).take (5 - n)).flatMap
        (fun ch => fetchComments (oracle ch.id) 10) := by
  induction l with
  | nil => intro n; simp [processChildren]
  | cons ch rest ih =>
    intro n
    rw [List.filter_cons]
    by_cases hst : ch.stickied
    · simp [processChildren, hst, ih]
    · by_cases hn : n + 1 ≤ 5
      · have h5 : 5 - n = (5 - (n + 1)) + 1 := by omega
        simp only [processChildren, hst]
        simp only [Bool.not_false, if_true, if_pos hn, ih]
        rw [h5, List.take_succ_cons, List.flatMap_cons]
        simp
      · have h5 : 5 - n = 0 := by omega
        have h5' : 5 - (n + 1) = 0 := by omega
        simp only [processChildren, hst]
        simp only [Bool.not_false, if_true, if_neg hn, ih]
        rw [h5, h5']
        simp

theorem fetchComments_length_le (resp : CommentsResponse) (limit : Nat) :
    (fetchComments resp limit).length ≤ limit := by
  cases resp <;> simp [fetchComments, askCommentPipeline]

theorem flatMap_length_le {α β : Type} (l : List α) (f : α → List β) (k : Nat)
    (h : ∀ x, (f x).length ≤ k) : (l.flatMap f).length ≤ l.length * k := by
  induction l with
  | nil => simp
  | cons x xs ih =>
    rw [List.flatMap_cons, List.length_append]
    have := h x
    have := ih
    calc (f x).length + (xs.flatMap f).length ≤ k + xs.length * k := by omega
      _ = (xs.length + 1) * k := by ring
      _ = (x :: xs).length * k := by simp

theorem ne_empty_of_length_pos {s : String} (h : 0 < s.length) : s.isEmpty = false := by
  rcases hb : s.isEmpty
  · rfl
  · exfalso
    rw [String.isEmpty_iff] at hb
    subst hb
    simp at h

theorem length_pos_of_ne_empty {s : String} (h : s.isEmpty = false) : 0 < s.length := by
  by_contra hc
  have h0 : s.length = 0 := by omega
  have : s = "" := by
    cases s with
    | mk data =>
      cases data with
      | nil => rfl
      | cons c cs => simp [String.length] at h0
  subst this
  exact absurd h (by decide)

theorem append_ne_empty_left {a b : String} (ha : a.isEmpty = false) :
    (a ++ b).isEmpty = false := by
  apply ne_empty_of_length_pos
  have := length_pos_of_ne_empty ha
  simp only [String.length_append]
  omega

theorem renderPost_ne_empty (p : RedditPost) : (renderPost p).isEmpty = false := by
  unfold renderPost
  apply append_ne_empty_left
  apply append_ne_empty_left
  apply append_ne_empty_left
  apply append_ne_empty_left
  apply append_ne_empty_left
  decide

theorem renderComment_ne_empty (c : RedditComment) : (renderComment c).isEmpty = false := by
  unfold renderComment
  apply append_ne_empty_left
  apply append_ne_empty_left
  apply append_ne_empty_left
  decide

theorem jsJoin_ne_empty (sep : String) (l : List String) (hl : l ≠ [])
    (h : ∀ x ∈ l, x.isEmpty = false) : (jsJoin sep l).isEmpty = false := by
  match l with
  | [x] => simpa [jsJoin] using h x (by simp)
  | x :: y :: xs =>
    show ((x ++ sep) ++ jsJoin sep (y :: xs)).isEmpty = false
    apply append_ne_empty_left
    apply append_ne_empty_left
    exact h x (by simp)

theorem postGroup_empty_iff (posts : List RedditPost) :
    jsJoin blockSeparator ((selectedPosts posts).map renderPost) = "" ↔
      selectedPosts posts = [] := by
  constructor
  · intro h
    by_contra hne
    have hmap : (selectedPosts posts).map renderPost ≠ [] := by
      simpa using hne
    have := jsJoin_ne_empty blockSeparator ((selectedPosts posts).map renderPost) hmap
      (by
        intro x hx
        rcases List.mem_map.mp hx with ⟨p, _, rfl⟩
        exact renderPost_ne_empty p)
    rw [h] at this
    exact absurd this (by decide)
  · intro h
    rw [h]
    rfl

theorem commentGroup_empty_iff (comments : List RedditComment) :
    jsJoin blockSeparator ((selectedComments comments).map renderComment) = "" ↔
      selectedComments comments = [] := by
  constructor
  · intro h
    by_contra hne
    have hmap : (selectedComments comments).map renderComment ≠ [] := by
      simpa using hne
    have := jsJoin_ne_empty blockSeparator ((selectedComments comments).map renderComment) hmap
      (by
        intro x hx
        rcases List.mem_map.mp hx with ⟨c, _, rfl⟩
        exact renderComment_ne_empty c)
    rw [h] at this
    exact absurd this (by decide)
  · intro h
    rw [h]
    rfl

theorem validateSubreddit_eq_spec (s : String) :
    validateSubreddit s = specSubredditPattern s := by
  by_cases he : s.isEmpty = true
  · have hs : s = "" := (String.isEmpty_iff s).mp he
    subst hs
    decide
  · have he' : s.isEmpty = false := by
      rcases hb : s.isEmpty
      · rfl
      · exact absurd hb he
    simp [validateSubreddit, specSubredditPattern, subredditPatternTest, he']

theorem getFreshToken_network (s : TokenState) (now : Nat) (resp : TokenFetchResult) :
    (getAccessToken.getFreshToken s now resp).network = true := by
  rcases resp with st | tf
  · rfl
  · rcases tf with _ | t
    · rfl
    · by_cases ht : t.isEmpty <;> simp [getAccessToken.getFreshToken, ht]

theorem getFreshToken_ok (s : TokenState) (now : Nat) (resp : TokenFetchResult)
    (tok : String) (s' : TokenState) (nw : Bool)
    (h : getAccessToken.getFreshToken s now resp = ⟨.ok tok, s', nw⟩) :
    s' = ⟨some tok, some (now + tokenWindowMs)⟩ ∧ tok.isEmpty = false := by
  rcases resp with st | tf
  · exact absurd (congrArg TokenStep.result h) (by simp [getAccessToken.getFreshToken])
  · rcases tf with _ | t
    · exact absurd (congrArg TokenStep.result h) (by simp [getAccessToken.getFreshToken])
    · by_cases ht : t.isEmpty
      · exact absurd (congrArg TokenStep.result h)
          (by simp [getAccessToken.getFreshToken, ht])
      · have ht' : t.isEmpty = false := by
          rcases hb : t.isEmpty
          · rfl
          · exact absurd hb ht
        rw [getAccessToken.getFreshToken] at h
        simp only [ht', Bool.false_eq_true, if_false] at h
        have h1 := congrArg TokenStep.result h
        have h2 := congrArg TokenStep.state h
        simp only at h1 h2
        have : t = tok := by
          cases h1
          rfl
        subst this
        exact ⟨h2.symm, ht'⟩

theorem getAccessToken_fetch_path (s : TokenState) (now : Nat) (resp : TokenFetchResult)
    (tok : String) (s' : TokenState)
    (h : getAccessToken s now resp = ⟨.ok tok, s', true⟩) :
    s' = ⟨some tok, some (now + tokenWindowMs)⟩ ∧ tok.isEmpty = false := by
  obtain ⟨a, e⟩ := s
  rcases a with _ | t0 <;> rcases e with _ | e0
  · exact getFreshToken_ok _ _ _ _ _ _ h
  · exact getFreshToken_ok _ _ _ _ _ _ h
  · exact getFreshToken_ok _ _ _ _ _ _ h
  · have h' : (if (!t0.isEmpty && decide (now < e0)) = true then
        ({ result := Except.ok t0, state := ⟨some t0, some e0⟩, network := false } : TokenStep)
      else getAccessToken.getFreshToken ⟨some t0, some e0⟩ now resp) = ⟨.ok tok, s', true⟩ := h
    by_cases hc : (!t0.isEmpty && decide (now < e0)) = true
    · rw [if_pos hc] at h'
      exact absurd (congrArg TokenStep.network h') (by simp)
    · rw [if_neg hc] at h'
      exact getFreshToken_ok _ _ _ _ _ _ h'

theorem getAccessToken_cache_hit (tok : String) (exp t2 : Nat) (resp : TokenFetchResult)
    (htok : tok.isEmpty = false) (ht : t2 < exp) :
    getAccessToken ⟨some tok, some exp⟩ t2 resp =
      ⟨.ok tok, ⟨some tok, some exp⟩, false⟩ := by
  show (if (!tok.isEmpty && decide (t2 < exp)) = true then
      ({ result := Except.ok tok, state := ⟨some tok, some exp⟩, network := false } : TokenStep)
    else getAccessToken.getFreshToken ⟨some tok, some exp⟩ t2 resp) =
    ⟨.ok tok, ⟨some tok, some exp⟩, false⟩
  rw [if_pos (by simp [htok, ht])]

theorem getAccessToken_expired (tok : String) (exp t2 : Nat) (resp : TokenFetchResult)
    (ht : exp ≤ t2) :
    (getAccessToken ⟨some tok, some exp⟩ t2 resp).network = true := by
  show (if (!tok.isEmpty && decide (t2 < exp)) = true then
      ({ result := Except.ok tok, state := ⟨some tok, some exp⟩, network := false } : TokenStep)
    else getAccessToken.getFreshToken ⟨some tok, some exp⟩ t2 resp).network = true
  rw [if_neg (by simp; omega)]
  exact getFreshToken_network _ _ _

theorem generation_not_mem_commentTrace (children : List RawChild) (limit : Nat) :
    NetworkCall.generationCall ∉ commentTrace children limit := by
  intro h
  rw [commentTrace] at h
  rcases List.mem_map.mp h with ⟨ch, _, hch⟩
  simp at hch

theorem fetch_trace_no_generation (env : Env) (subreddit : String) (limit : Nat) :
    NetworkCall.generationCall ∉ (fetchSubredditDataT env subreddit limit).2 := by
  rw [fetchSubredditDataT]
  rcases hres : (getAccessToken env.tokenState env.now env.tokenResp).result with e | tok <;>
    cases hnet : (getAccessToken env.tokenState env.now env.tokenResp).network <;>
    rcases hl : env.listingResp with st | _ | children <;>
    simp only [hnet, hres, hl, if_true, if_false, Bool.false_eq_true] <;>
    (try split) <;> (try split) <;> simp [generation_not_mem_commentTrace]

/-- C1: for every request to the answer operation whose forum name fails the
pattern `^[A-Za-z0-9_]{1,50}$` or whose question has trimmed length shorter
than 5 or longer than 500 characters, the operation fails with
ValidationError and performs zero network calls (no token fetch, no forum
fetch, no generation call). -/
theorem answer_invalid_input_validation_no_network
    (subreddit question model : String) (env : Env)
    (h : specSubredditPattern subreddit = false ∨
      (jsTrim question).length < 5 ∨ 500 < (jsTrim question).length) :
    answer subreddit question model env = (.error .validation, []) := by
  rw [answer]
  rcases h with h | h | h
  · have hv : validateSubreddit subreddit = false := by
      rw [validateSubreddit_eq_spec]
      exact h
    simp [hv]
  · have hq : validateQuestion question = false := by
      have h5 : ¬ (5 ≤ (jsTrim question).length) := by omega
      simp [validateQuestion, h5]
    by_cases hs : validateSubreddit subreddit <;> simp [hs, hq]
  · have hq : validateQuestion question = false := by
      have h5 : ¬ ((jsTrim question).length ≤ 500) := by omega
      simp [validateQuestion, h5]
    by_cases hs : validateSubreddit subreddit <;> simp [hs, hq]

/-- Witness for C1 at the concrete forum name "bad-name" (fails the pattern
because of the hyphen). -/
theorem answer_invalid_input_validation_no_network_witness :
    specSubredditPattern "bad-name" = false ∧
      answer "bad-name" "What are the biggest trends?" "gpt-4o-mini" demoEnv =
        (.error .validation, []) :=
  ⟨by decide,
    answer_invalid_input_validation_no_network "bad-name"
      "What are the biggest trends?" "gpt-4o-mini" demoEnv (Or.inl (by decide))⟩

/-- C2: after a token fetch succeeding at time T, the cached expiry is
T + 50 minutes; any call strictly before T + 50 minutes returns the cached
token with no network call and leaves the cache unchanged, and any call at or
after T + 50 minutes performs a new network request to the token endpoint. -/
theorem token_cache_expiry_window
    (s : TokenState) (now : Nat) (resp : TokenFetchResult)
    (tok : String) (s' : TokenState)
    (h : getAccessToken s now resp = ⟨.ok tok, s', true⟩) :
    s'.tokenExpiry = some (now + tokenWindowMs) ∧
      (∀ (t2 : Nat) (resp2 : TokenFetchResult), t2 < now + tokenWindowMs →
        getAccessToken s' t2 resp2 = ⟨.ok tok, s', false⟩) ∧
      (∀ (t2 : Nat) (resp2 : TokenFetchResult), now + tokenWindowMs ≤ t2 →
        (getAccessToken s' t2 resp2).network = true) := by
  obtain ⟨hs', htok⟩ := getAccessToken_fetch_path s now resp tok s' h
  subst hs'
  refine ⟨rfl, ?_, ?_⟩
  · intro t2 resp2 ht2
    exact getAccessToken_cache_hit tok _ t2 resp2 htok ht2
  · intro t2 resp2 ht2
    exact getAccessToken_expired tok _ t2 resp2 ht2

/-- Witness for C2: a fetch at time 0, a cache hit at 49 minutes, and a new
network request at 51 minutes. -/
theorem token_cache_expiry_window_witness :
    getAccessToken ⟨none, none⟩ 0 (.ok (some "tkn")) =
        ⟨.ok "tkn", ⟨some "tkn", some 3000000⟩, true⟩ ∧
      getAccessToken ⟨some "tkn", some 3000000⟩ 2940000 (.ok (some "other")) =
        ⟨.ok "tkn", ⟨some "tkn", some 3000000⟩, false⟩ ∧
      (getAccessToken ⟨some "tkn", some 3000000⟩ 3060000 (.ok (some "other"))).network =
        true :=
  ⟨rfl,
    (token_cache_expiry_window ⟨none, none⟩ 0 (.ok (some "tkn")) "tkn"
        ⟨some "tkn", some 3000000⟩ rfl).2.1 2940000 (.ok (some "other")) (by decide),
    (token_cache_expiry_window ⟨none, none⟩ 0 (.ok (some "tkn")) "tkn"
        ⟨some "tkn", some 3000000⟩ rfl).2.2 3060000 (.ok (some "other")) (by decide)⟩

/-- C3: an answer request that passes validation but whose fetched snapshot
has zero posts, or whose normalized content is empty or shorter than 100
characters, fails with InsufficientContent and never invokes the generation
collaborator. -/
theorem answer_insufficient_content_no_generation
    (subreddit question model : String) (env : Env) (snap : SubredditData)
    (hs : validateSubreddit subreddit = true)
    (hq : validateQuestion question = true)
    (hm : allowedModels.contains model = true)
    (hf : fetchSubredditData env subreddit 25 = .ok snap)
    (hins : snap.posts = [] ∨
      (extractRedditContent snap.posts snap.comments).length < 100) :
    (answer subreddit question model env).1 = .error .insufficientContent ∧
      NetworkCall.generationCall ∉ (answer subreddit question model env).2 := by
  have hse : subreddit.isEmpty = false := by
    rcases hb : subreddit.isEmpty
    · rfl
    · rw [validateSubreddit] at hs
      simp [hb] at hs
  have hqe : question.isEmpty = false := by
    rcases hb : question.isEmpty
    · rfl
    · rw [validateQuestion] at hq
      simp [hb] at hq
  rw [fetchSubredditData] at hf
  have key : answer subreddit question model env =
      (.error .insufficientContent, (fetchSubredditDataT env subreddit 25).2) := by
    rw [answer]
    simp only [hs, hq, hm, hse, hqe, Bool.not_true, Bool.or_self, Bool.false_eq_true,
      if_false, hf]
    rcases hins with hp | hc
    · simp [hp]
    · by_cases hp : snap.posts.isEmpty
      · simp [hp]
      · have hd : decide ((extractRedditContent snap.posts snap.comments).length < 100) =
            true := by simpa using hc
        simp [hp, hd]
  rw [key]
  exact ⟨rfl, fetch_trace_no_generation env subreddit 25⟩

/-- Witness for C3: a valid request against an environment whose listing has
no children, giving a snapshot with zero posts. -/
theorem answer_insufficient_content_no_generation_witness :
    validateSubreddit "technology" = true ∧
      validateQuestion "What are the biggest trends?" = true ∧
      allowedModels.contains "gpt-4o-mini" = true ∧
      fetchSubredditData demoEnv "technology" 25 = .ok ⟨[], [], "technology", 0⟩ ∧
      (answer "technology" "What are the biggest trends?" "gpt-4o-mini" demoEnv).1 =
        .error .insufficientContent ∧
      NetworkCall.generationCall ∉
        (answer "technology" "What are the biggest trends?" "gpt-4o-mini" demoEnv).2 :=
  ⟨by decide, by decide, by decide, rfl,
    (answer_insufficient_content_no_generation "technology"
      "What are the biggest trends?" "gpt-4o-mini" demoEnv ⟨[], [], "technology", 0⟩
      (by decide) (by decide) (by decide) rfl (Or.inl rfl)).1,
    (answer_insufficient_content_no_generation "technology"
      "What are the biggest trends?" "gpt-4o-mini" demoEnv ⟨[], [], "technology", 0⟩
      (by decide) (by decide) (by decide) rfl (Or.inl rfl)).2⟩

/-- C4: the snapshot returned by the fetch operation has its posts and its
comments sorted by score descending, and for every score value the
subsequence of elements with that score is exactly the one of the unsorted
lists built from the upstream response, i.e. ties keep their upstream
relative order (stable sort). -/
theorem snapshot_sorted_desc_stable
    (children : List RawChild) (oracle : String → CommentsResponse)
    (subreddit : String) (now limit : Nat) :
    (buildSnapshot children oracle subreddit now limit).posts.Pairwise
        (fun a b => b.score ≤ a.score) ∧
      (buildSnapshot children oracle subreddit now limit).comments.Pairwise
        (fun a b => b.score ≤ a.score) ∧
      (∀ s : Int,
        (buildSnapshot children oracle subreddit now limit).posts.filter
            (fun p => p.score == s) =
          (processChildren oracle (children.take limit) 0).1.filter
            (fun p => p.score == s)) ∧
      (∀ s : Int,
        (buildSnapshot children oracle subreddit now limit).comments.filter
            (fun c => c.score == s) =
          (processChildren oracle (children.take limit) 0).2.filter
            (fun c => c.score == s)) := by
  refine ⟨?_, ?_, ?_, ?_⟩
  · exact stableSortDesc_pairwise RedditPost.score _
  · exact stableSortDesc_pairwise RedditComment.score _
  · intro s
    exact stableSortDesc_filter RedditPost.score s _
  · intro s
    exact stableSortDesc_filter RedditComment.score s _

/-- C5: per-post comment-fetch outcomes never change whether the snapshot
operation succeeds nor its posts (first conjunct, for any two comment
oracles); comments are gathered exactly from the first 5 retained posts in
upstream order (second conjunct); and an HTTP failure of a per-post comment
fetch is swallowed, contributing an empty list (third conjunct). -/
theorem comment_failures_isolated
    (tokSt : TokenState) (now : Nat) (tokResp : TokenFetchResult)
    (listing : ListingResponse) (g g' : Except GenFailure GenSuccess)
    (subreddit : String) (limit : Nat)
    (oracle oracle' : String → CommentsResponse)
    (children : List RawChild) (st : Nat) :
    (fetchSubredditData ⟨tokSt, now, tokResp, listing, oracle, g⟩ subreddit limit).map
        (fun snap => snap.posts) =
      (fetchSubredditData ⟨tokSt, now, tokResp, listing, oracle', g'⟩ subreddit limit).map
        (fun snap => snap.posts) ∧
      (buildSnapshot children oracle subreddit now limit).comments =
        stableSortDesc RedditComment.score
          ((((children.take limit).filter (fun ch => !ch.stickied)).take 5).flatMap
            (fun ch => fetchComments (oracle ch.id) 10)) ∧
      fetchComments (.httpError st) 10 = [] := by
  refine ⟨?_, ?_, rfl⟩
  · simp only [fetchSubredditData, fetchSubredditDataT]
    cases hres : (getAccessToken tokSt now tokResp).result <;>
      rcases listing with st' | _ | children' <;>
      simp only [hres] <;>
      (try split) <;> (try split) <;>
      simp [buildSnapshot, processChildren_fst, Except.map]
  · show stableSortDesc RedditComment.score
        (processChildren oracle (children.take limit) 0).2 = _
    rw [processChildren_snd]

/-- C10: the comments list of every assembled snapshot has at most 50
entries: comments come from at most 5 posts, each contributing at most 10. -/
theorem snapshot_comments_bounded
    (children : List RawChild) (oracle : String → CommentsResponse)
    (subreddit : String) (now limit : Nat) :
    (buildSnapshot children oracle subreddit now limit).comments.length ≤ 50 := by
  have hlen : (buildSnapshot children oracle subreddit now limit).comments.length =
      (processChildren oracle (children.take limit) 0).2.length :=
    (stableSortDesc_perm RedditComment.score
      (processChildren oracle (children.take limit) 0).2).length_eq
  rw [hlen, processChildren_snd]
  have hb := flatMap_length_le
    (((children.take limit).filter (fun ch => !ch.stickied)).take (5 - 0))
    (fun ch => fetchComments (oracle ch.id) 10) 10
    (fun ch => fetchComments_length_le (oracle ch.id) 10)
  have ht : (((children.take limit).filter (fun ch => !ch.stickied)).take (5 - 0)).length ≤
      5 := List.length_take_le _ _
  omega

theorem keepComment_mkComment (rc : RawComment) (h : keepComment rc = true) :
    (mkComment rc).body.isEmpty = false ∧ (mkComment rc).body ≠ "[deleted]" ∧
      (mkComment rc).body ≠ "[removed]" := by
  rw [keepComment] at h
  rcases hb : rc.body with _ | b
  · rw [hb] at h
    simp at h
  · rw [hb] at h
    simp only [Bool.and_eq_true] at h
    obtain ⟨-, hbody⟩ := h
    have hbody' : b.isEmpty = false ∧ b ≠ "[deleted]" ∧ b ≠ "[removed]" := by
      simp only [Bool.and_eq_true, Bool.not_eq_eq_eq_not, Bool.not_true, bne_iff_ne] at hbody
      exact ⟨hbody.1.1, hbody.1.2, hbody.2⟩
    have hmk : (mkComment rc).body = b := by
      simp [mkComment, hb]
    rw [hmk]
    exact hbody'

/-- C6: the ask-question route's comment filtering and the snoowrap variant's
comment filtering both return, for every upstream listing, only comments with
positive score and a truthy, non-deleted body, and each output is a sublist
of the qualifying comments of the listing — so the two implementations can
differ at most in which qualifying comments survive the cap. -/
theorem comment_filter_implementations_agree
    (listing : List RawComment) (limit : Nat) :
    (askCommentPipeline listing limit).all positiveNonDeleted = true ∧
      (snooCommentPipeline listing).all positiveNonDeleted = true ∧
      (askCommentPipeline listing limit).Sublist
        ((listing.map mkComment).filter positiveNonDeleted) ∧
      (snooCommentPipeline listing).Sublist
        ((listing.map transformComment).filter positiveNonDeleted) := by
  refine ⟨?_, ?_, ?_, ?_⟩
  · rw [List.all_eq_true]
    intro c hc
    have hc1 := List.mem_of_mem_take hc
    rcases List.mem_filter.mp hc1 with ⟨hc2, hscore⟩
    rcases List.mem_map.mp hc2 with ⟨rc, hrc, rfl⟩
    rcases List.mem_filter.mp hrc with ⟨-, hkeep⟩
    obtain ⟨hb1, hb2, hb3⟩ := keepComment_mkComment rc hkeep
    simp [positiveNonDeleted, hb1, hb2, hb3, hscore]
  · rw [List.all_eq_true]
    intro c hc
    exact (List.mem_filter.mp hc).2
  · have s1 : ((listing.take limit).filter keepComment).Sublist
        (listing.filter keepComment) :=
      (List.take_sublist limit listing).filter keepComment
    have s2 := s1.map mkComment
    have s3 := s2.filter (fun c => decide (0 < c.score))
    have s4 : ((listing.filter keepComment).map mkComment).filter
          (fun c => decide (0 < c.score)) =
        ((listing.filter keepComment).map mkComment).filter positiveNonDeleted := by
      apply List.filter_congr
      intro c hc
      rcases List.mem_map.mp hc with ⟨rc, hrc, rfl⟩
      obtain ⟨hb1, hb2, hb3⟩ :=
        keepComment_mkComment rc (List.mem_filter.mp hrc).2
      simp [positiveNonDeleted, hb1, hb2, hb3]
    have s5 : (((listing.filter keepComment).map mkComment).filter
          positiveNonDeleted).Sublist
        ((listing.map mkComment).filter positiveNonDeleted) :=
      ((List.filter_sublist listing).map mkComment).filter positiveNonDeleted
    refine (List.take_sublist limit _).trans ?_
    rw [s4] at s3
    exact s3.trans s5
  · exact ((List.take_sublist 10 listing).map transformComment).filter positiveNonDeleted

/-- C7: in buildPromptText's selection, a post body of exactly 50 characters
is excluded while one of 51 characters qualifies, a comment body of exactly
30 characters is excluded while one of 31 characters with positive score
qualifies (both boundaries strict), and at most the first 10 qualifying posts
and the first 15 qualifying comments are rendered. -/
theorem prompt_selection_boundaries
    (posts : List RedditPost) (comments : List RedditComment)
    (p : RedditPost) (c : RedditComment) :
    (p.selftext.length = 50 → p ∉ selectedPosts posts) ∧
      (p ∈ posts → p.selftext.length = 51 → p ∈ posts.filter postQualifies) ∧
      (selectedPosts posts).length ≤ 10 ∧
      selectedPosts posts = (posts.filter postQualifies).take 10 ∧
      (c.body.length = 30 → c ∉ selectedComments comments) ∧
      (c ∈ comments → c.body.length = 31 → 0 < c.score →
        c ∈ comments.filter commentQualifies) ∧
      (selectedComments comments).length ≤ 15 ∧
      selectedComments comments = (comments.filter commentQualifies).take 15 := by
  refine ⟨?_, ?_, List.length_take_le _ _, rfl, ?_, ?_, List.length_take_le _ _, rfl⟩
  · intro h50 hmem
    have hq := (List.mem_filter.mp (List.mem_of_mem_take hmem)).2
    rw [postQualifies, h50] at hq
    simp at hq
  · intro hp h51
    refine List.mem_filter.mpr ⟨hp, ?_⟩
    have hne : p.selftext.isEmpty = false := ne_empty_of_length_pos (by omega)
    rw [postQualifies, h51]
    simp [hne]
  · intro h30 hmem
    have hq := (List.mem_filter.mp (List.mem_of_mem_take hmem)).2
    rw [commentQualifies, h30] at hq
    simp at hq
  · intro hc h31 hsc
    refine List.mem_filter.mpr ⟨hc, ?_⟩
    have hne : c.body.isEmpty = false := ne_empty_of_length_pos (by omega)
    rw [commentQualifies, h31]
    simp [hne, hsc]

/-- Witness for C7 at the 50/51- and 30/31-character boundaries. -/
theorem prompt_selection_boundaries_witness :
    post50 ∉ selectedPosts [post50, post51] ∧
      post51 ∈ ([post50, post51] : List RedditPost).filter postQualifies ∧
      comment30 ∉ selectedComments [comment30, comment31] ∧
      comment31 ∈ ([comment30, comment31] : List RedditComment).filter commentQualifies :=
  ⟨(prompt_selection_boundaries [post50, post51] [] post50 comment30).1 (by decide),
    (prompt_selection_boundaries [post50, post51] [] post51 comment30).2.1
      (by decide) (by decide),
    (prompt_selection_boundaries [] [comment30, comment31] post50 comment30).2.2.2.2.1
      (by decide),
    (prompt_selection_boundaries [] [comment30, comment31] post50 comment31).2.2.2.2.2.1
      (by decide) (by decide) (by decide)⟩

/-- C8 (failing input): processing a non-stickied submission whose
`created_utc` field is absent. The built post defaults `author` to
"[deleted]" and `score`/`num_comments` to 0, but its `created_utc` is left
absent (`none`), not replaced by 0, contradicting the claim that every
missing numeric field is replaced by 0 (and the declared
`created_utc : number` of `RedditPost`); stickied discarding and order are
unaffected. -/
theorem created_utc_not_defaulted :
    (mkPost missingCreatedChild).author = "[deleted]" ∧
      (mkPost missingCreatedChild).score = 0 ∧
      (mkPost missingCreatedChild).num_comments = 0 ∧
      (buildSnapshot [missingCreatedChild] (fun _ => .noChildren) "test" 0 25).posts =
        [mkPost missingCreatedChild] ∧
      (mkPost missingCreatedChild).created_utc = none ∧
      decide ((mkPost missingCreatedChild).created_utc = some 0) = false := by
  refine ⟨rfl, rfl, rfl, rfl, rfl, by decide⟩

/-- C9 (amended): buildPromptText joins the non-empty groups with exactly one
inserted posts-end marker — with at least one qualifying post and at least
one qualifying comment the output is the post group, one marker, then the
comment group; with exactly one non-empty group the output is that group
alone; and the output is the empty string exactly when both groups are
empty. (The marker substring may additionally occur inside rendered titles
or bodies, so its total occurrence count can exceed one.) -/
theorem prompt_join_marker_structure
    (posts : List RedditPost) (comments : List RedditComment) :
    (extractRedditContent posts comments = "" ↔
        selectedPosts posts = [] ∧ selectedComments comments = []) ∧
      (selectedPosts posts ≠ [] → selectedComments comments ≠ [] →
        extractRedditContent posts comments =
          jsJoin blockSeparator ((selectedPosts posts).map renderPost) ++
            postsEndMarker ++
            jsJoin blockSeparator ((selectedComments comments).map renderComment)) ∧
      (selectedPosts posts = [] → selectedComments comments ≠ [] →
        extractRedditContent posts comments =
          jsJoin blockSeparator ((selectedComments comments).map renderComment)) ∧
      (selectedPosts posts ≠ [] → selectedComments comments = [] →
        extractRedditContent posts comments =
          jsJoin blockSeparator ((selectedPosts posts).map renderPost)) := by
  have hext : extractRedditContent posts comments =
      jsJoin postsEndMarker
        (([jsJoin blockSeparator ((selectedPosts posts).map renderPost),
            jsJoin blockSeparator ((selectedComments comments).map renderComment)]).filter
          (fun s => !s.isEmpty)) := rfl
  by_cases hp : selectedPosts posts = [] <;>
    by_cases hc : selectedComments comments = []
  · have hPe : jsJoin blockSeparator ((selectedPosts posts).map renderPost) = "" :=
      (postGroup_empty_iff posts).mpr hp
    have hCe : jsJoin blockSeparator ((selectedComments comments).map renderComment) = "" :=
      (commentGroup_empty_iff comments).mpr hc
    rw [hext, hPe, hCe]
    refine ⟨by simp [hp, hc, jsJoin], ?_, ?_, ?_⟩ <;> simp [hp, hc]
  · have hPe : jsJoin blockSeparator ((selectedPosts posts).map renderPost) = "" :=
      (postGroup_empty_iff posts).mpr hp
    have hCne : (jsJoin blockSeparator
        ((selectedComments comments).map renderComment)).isEmpty = false := by
      rcases hb : (jsJoin blockSeparator
          ((selectedComments comments).map renderComment)).isEmpty
      · rfl
      · exact absurd ((commentGroup_empty_iff comments).mp
          ((String.isEmpty_iff _).mp hb)) hc
    rw [hext, hPe]
    have hfil : ((["",
        jsJoin blockSeparator ((selectedComments comments).map renderComment)]).filter
          (fun s => !s.isEmpty)) =
        [jsJoin blockSeparator ((selectedComments comments).map renderComment)] := by
      have h0 : (("" : String).isEmpty) = true := rfl
      simp [List.filter_cons, h0, hCne]
    rw [hfil]
    refine ⟨?_, ?_, ?_, ?_⟩
    · constructor
      · intro h
        exact absurd ((String.isEmpty_iff _).mpr (by simpa [jsJoin] using h)) (by
          rw [hCne]; simp)
      · intro h
        exact absurd h.2 hc
    · intro h
      exact absurd hp h
    · intro _ _
      rfl
    · intro h
      exact absurd hp h
  · have hCe : jsJoin blockSeparator ((selectedComments comments).map renderComment) = "" :=
      (commentGroup_empty_iff comments).mpr hc
    have hPne : (jsJoin blockSeparator
        ((selectedPosts posts).map renderPost)).isEmpty = false := by
      rcases hb : (jsJoin blockSeparator
          ((selectedPosts posts).map renderPost)).isEmpty
      · rfl
      · exact absurd ((postGroup_empty_iff posts).mp
          ((String.isEmpty_iff _).mp hb)) hp
    rw [hext, hCe]
    have hfil : (([jsJoin blockSeparator ((selectedPosts posts).map renderPost),
        ""]).filter (fun s => !s.isEmpty)) =
        [jsJoin blockSeparator ((selectedPosts posts).map renderPost)] := by
      have h0 : (("" : String).isEmpty) = true := rfl
      simp [List.filter_cons, h0, hPne]
    rw [hfil]
    refine ⟨?_, ?_, ?_, ?_⟩
    · constructor
      · intro h
        exact absurd ((String.isEmpty_iff _).mpr (by simpa [jsJoin] using h)) (by
          rw [hPne]; simp)
      · intro h
        exact absurd h.1 hp
    · intro _ h
      exact absurd hc h
    · intro h
      exact absurd h hp
    · intro _ _
      rfl
  · have hPne : (jsJoin blockSeparator
        ((selectedPosts posts).map renderPost)).isEmpty = false := by
      rcases hb : (jsJoin blockSeparator
          ((selectedPosts posts).map renderPost)).isEmpty
      · rfl
      · exact absurd ((postGroup_empty_iff posts).mp
          ((String.isEmpty_iff _).mp hb)) hp
    have hCne : (jsJoin blockSeparator
        ((selectedComments comments).map renderComment)).isEmpty = false := by
      rcases hb : (jsJoin blockSeparator
          ((selectedComments comments).map renderComment)).isEmpty
      · rfl
      · exact absurd ((commentGroup_empty_iff comments).mp
          ((String.isEmpty_iff _).mp hb)) hc
    have hfil : (([jsJoin blockSeparator ((selectedPosts posts).map renderPost),
        jsJoin blockSeparator ((selectedComments comments).map renderComment)]).filter
          (fun s => !s.isEmpty)) =
        [jsJoin blockSeparator ((selectedPosts posts).map renderPost),
          jsJoin blockSeparator ((selectedComments comments).map renderComment)] := by
      simp [List.filter_cons, hPne, hCne]
    have hout : extractRedditContent posts comments =
        jsJoin blockSeparator ((selectedPosts posts).map renderPost) ++
          postsEndMarker ++
          jsJoin blockSeparator ((selectedComments comments).map renderComment) := by
      rw [hext, hfil]
      rfl
    refine ⟨?_, ?_, ?_, ?_⟩
    · constructor
      · intro h
        rw [hout] at h
        have : ((jsJoin blockSeparator ((selectedPosts posts).map renderPost) ++
            postsEndMarker ++
            jsJoin blockSeparator
              ((selectedComments comments).map renderComment)).isEmpty) = false :=
          append_ne_empty_left (append_ne_empty_left hPne)
        rw [h] at this
        exact absurd this (by decide)
      · intro h
        exact absurd h.1 hp
    · intro _ _
      exact hout
    · intro h
      exact absurd h hp
    · intro _ h
      exact absurd h hc

/-- Witness for C9 (amended) covering each hypothesis: both groups present
(one inserted marker), only comments present, and only posts present. -/
theorem prompt_join_marker_structure_witness :
    (extractRedditContent [markerPost] [comment31] =
        jsJoin blockSeparator ((selectedPosts [markerPost]).map renderPost) ++
          postsEndMarker ++
          jsJoin blockSeparator ((selectedComments [comment31]).map renderComment)) ∧
      (extractRedditContent [] [comment31] =
        jsJoin blockSeparator ((selectedComments [comment31]).map renderComment)) ∧
      (extractRedditContent [markerPost] [] =
        jsJoin blockSeparator ((selectedPosts [markerPost]).map renderPost)) :=
  ⟨(prompt_join_marker_structure [markerPost] [comment31]).2.1 (by decide) (by decide),
    (prompt_join_marker_structure [] [comment31]).2.2.1 rfl (by decide),
    (prompt_join_marker_structure [markerPost] []).2.2.2 (by decide) rfl⟩

set_option maxRecDepth 40000

/-- C9 (counterexample to the claim as stated): a call with one qualifying
post and one qualifying comment whose output contains the posts-end marker
twice, because the post's raw title carries the marker verbatim into the
output — refuting that such a call's output contains the marker exactly
once. -/
theorem marker_occurs_twice_counterexample :
    selectedPosts [markerPost] ≠ [] ∧
      selectedComments [comment31] ≠ [] ∧
      countOccurStr postsEndMarker (extractRedditContent [markerPost] [comment31]) = 2 :=
  ⟨by decide, by decide, by decide⟩
